import Mathlib

/-!
Verification of the after-school lessons backend (Express + MongoDB).

The development shallowly embeds the two source files:
* the API server (`/lessons`, `/search`, `/orders`, `PUT /lessons/:id`), and
* the seeding script (`seed.js`).

JavaScript values that flow through the handlers are modelled by `JVal`
(strings, numbers, absent), JavaScript numbers by `JNum` (rationals plus
`nan` and the infinities; binary-float rounding is not modelled — all values
appearing in the repository are small integers).  MongoDB collections are
lists of documents; the store-assigned `_id` is modelled as the 24-character
hex string together with the timestamp read from its first 8 hex digits.

The `Number(...)` coercion of JavaScript is modelled by `jsStrToNumber` on
the decimal / hex / octal / binary literal fragment (optional sign, digits,
optional fraction and exponent, `Infinity`); strings outside this fragment
coerce to `nan` exactly as in JavaScript.

`new RegExp(q, 'i')` is modelled by `regexTest` on the fragment of patterns
consisting of literal characters and the `.` wildcard; theorems about
search restrict the token accordingly (`regexLiteralChar`).
-/

namespace Aneski

/-- JavaScript numbers: a rational value, the infinities, or `NaN`. -/
inductive JNum where
  | num (q : ℚ)
  | inf
  | negInf
  | nan
deriving DecidableEq

/-- Model of `Number.isNaN`. -/
def JNum.isNaN : JNum → Bool
  | .nan => true
  | _ => false

/-- JavaScript values reaching the handlers: absent (`undefined`), a string,
or a number.  (Booleans, `null`, objects and arrays never matter for the
claims under verification and are left out of the model.) -/
inductive JVal where
  | undef
  | str (s : String)
  | num (n : JNum)
deriving DecidableEq

/-- JavaScript truthiness on the modelled values:
`undefined`, `""`, `0` and `NaN` are falsy. -/
def JVal.truthy : JVal → Bool
  | .undef => false
  | .str s => !(s == "")
  | .num n => !(n == JNum.num 0) && !(n == JNum.nan)

/-- JavaScript `a || b`: first truthy operand. -/
def jsOr (a b : JVal) : JVal :=
  if a.truthy then a else b

/-- JavaScript `a ?? b` (on the modelled values only `undefined` is nullish). -/
def nullishOr (a b : JVal) : JVal :=
  if a = JVal.undef then b else a

/-! ### The `Number(string)` coercion -/

/-- Numeric value of a decimal digit character. -/
def digVal (c : Char) : Nat := c.toNat - 48

/-- Split the longest run of decimal digits off the front of a character list. -/
def takeDigits : List Char → List Char × List Char
  | [] => ([], [])
  | c :: cs =>
    if c.isDigit then
      let p := takeDigits cs
      (c :: p.1, p.2)
    else ([], c :: cs)

/-- Value of a list of decimal digits. -/
def digitsVal (ds : List Char) : Nat :=
  ds.foldl (fun a c => a * 10 + digVal c) 0

/-- Hex digit test. -/
def isHexChar (c : Char) : Bool :=
  c.isDigit || (('a' ≤ c && c ≤ 'f') || ('A' ≤ c && c ≤ 'F'))

/-- Numeric value of a hex digit character. -/
def hexVal (c : Char) : Nat :=
  if c.isDigit then c.toNat - 48
  else if 'a' ≤ c && c ≤ 'f' then c.toNat - 87
  else c.toNat - 55

/-- Value of a list of hex digits. -/
def hexDigitsVal (ds : List Char) : Nat :=
  ds.foldl (fun a c => a * 16 + hexVal c) 0

/-- Parse the optional exponent suffix (`e`/`E`, optional sign, digits);
`none` on a malformed exponent, `some 0` on the empty remainder. -/
def parseExpPart : List Char → Option Int
  | [] => some 0
  | c :: rest =>
    if c = 'e' || c = 'E' then
      match rest with
      | '+' :: ds => if ds ≠ [] && ds.all Char.isDigit then some (digitsVal ds) else none
      | '-' :: ds => if ds ≠ [] && ds.all Char.isDigit then some (-(digitsVal ds : Int)) else none
      | ds => if ds ≠ [] && ds.all Char.isDigit then some (digitsVal ds) else none
    else none

/-- The rational `±m · 10^e`, built from a sign, a mantissa and a decimal
exponent. -/
def decValue (sign : Bool) (p : Nat × Int) : ℚ :=
  let m : Int := if sign then -(p.1 : Int) else (p.1 : Int)
  if 0 ≤ p.2 then mkRat (m * ((10 : Nat) ^ p.2.toNat : Nat)) 1
  else mkRat m ((10 : Nat) ^ (-p.2).toNat)

/-- Parse an unsigned decimal literal (`digits`, `digits.digits`, `.digits`,
`digits.`, with an optional exponent) into a mantissa and a decimal
exponent. -/
def parseDecimal (cs : List Char) : Option (Nat × Int) :=
  let p := takeDigits cs
  match p.2 with
  | '.' :: r2 =>
    let f := takeDigits r2
    if p.1 = [] && f.1 = [] then none
    else
      match parseExpPart f.2 with
      | some e => some (digitsVal (p.1 ++ f.1), e - (f.1.length : Int))
      | none => none
  | r1 =>
    if p.1 = [] then none
    else
      match parseExpPart r1 with
      | some e => some (digitsVal p.1, e)
      | none => none

/-- Strip leading and trailing whitespace (JavaScript string trimming). -/
def trimList (cs : List Char) : List Char :=
  ((cs.dropWhile Char.isWhitespace).reverse.dropWhile Char.isWhitespace).reverse

/-- Model of JavaScript `Number(s)` on strings (the decimal / hex / octal /
binary literal fragment; anything else coerces to `NaN`, the empty or
all-whitespace string to `0`). -/
def jsStrToNumber (s : String) : JNum :=
  let cs := trimList s.toList
  match cs with
  | [] => .num 0
  | '0' :: 'x' :: r =>
    if r ≠ [] && r.all isHexChar then .num (mkRat (hexDigitsVal r) 1) else .nan
  | '0' :: 'X' :: r =>
    if r ≠ [] && r.all isHexChar then .num (mkRat (hexDigitsVal r) 1) else .nan
  | '0' :: 'o' :: r =>
    if r ≠ [] && r.all (fun c => '0' ≤ c && c ≤ '7') then
      .num (mkRat (r.foldl (fun a c => a * 8 + digVal c) 0) 1)
    else .nan
  | '0' :: 'O' :: r =>
    if r ≠ [] && r.all (fun c => '0' ≤ c && c ≤ '7') then
      .num (mkRat (r.foldl (fun a c => a * 8 + digVal c) 0) 1)
    else .nan
  | '0' :: 'b' :: r =>
    if r ≠ [] && r.all (fun c => c = '0' || c = '1') then
      .num (mkRat (r.foldl (fun a c => a * 2 + digVal c) 0) 1)
    else .nan
  | '0' :: 'B' :: r =>
    if r ≠ [] && r.all (fun c => c = '0' || c = '1') then
      .num (mkRat (r.foldl (fun a c => a * 2 + digVal c) 0) 1)
    else .nan
  | _ =>
    if cs = "Infinity".toList || cs = "+Infinity".toList then .inf
    else if cs = "-Infinity".toList then .negInf
    else
      match cs with
      | '+' :: body =>
        match parseDecimal body with
        | some p => .num (decValue false p)
        | none => .nan
      | '-' :: body =>
        match parseDecimal body with
        | some p => .num (decValue true p)
        | none => .nan
      | body =>
        match parseDecimal body with
        | some p => .num (decValue false p)
        | none => .nan

/-- JavaScript `Number(v)` on a modelled value (`Number(undefined)` is `NaN`). -/
def jvToNumber : JVal → JNum
  | .undef => .nan
  | .str s => jsStrToNumber s
  | .num n => n

/-- The server utility `normalize`: `String(str ?? '').trim().toLowerCase()`,
with the raw query parameter modelled as an optional string. -/
def normalize (str : Option String) : String :=
  ⟨(trimList (str.getD "").toList).map Char.toLower⟩

/-! ### The `new RegExp(q, 'i')` model

Patterns are sequences of atoms: a literal character or the `.` wildcard.
This models the fragment of JavaScript regular expressions actually
exercised by lowercased search tokens free of the other metacharacters. -/

/-- A regular-expression atom. -/
inductive RAtom where
  | dot
  | lit (c : Char)
deriving DecidableEq

/-- Compile a pattern string: `.` becomes the wildcard, every other
character a literal (metacharacters other than `.` are outside the
modelled fragment; theorems restrict tokens via `regexLiteralChar`). -/
def compileRegexList (cs : List Char) : List RAtom :=
  cs.map fun c => if c = '.' then RAtom.dot else RAtom.lit c

/-- Characters with no special regular-expression meaning. -/
def regexLiteralChar (c : Char) : Bool :=
  !(['\\', '^', '$', '*', '+', '?', '(', ')', '[', ']',
     Char.ofNat 123, Char.ofNat 125, '|', '.'].contains c)

/-- One atom against one subject character, under the `i` flag
(`.` does not match a newline). -/
def atomMatch : RAtom → Char → Bool
  | .dot, c => !(c == Char.ofNat 10)
  | .lit a, c => a.toLower == c.toLower

/-- Whole pattern against a prefix of the subject. -/
def matchHere : List RAtom → List Char → Bool
  | [], _ => true
  | _ :: _, [] => false
  | a :: pat, c :: cs => atomMatch a c && matchHere pat cs

/-- Model of `regex.test(s)`: the pattern matches at some position of the subject. -/
def regexTest (pat : List RAtom) : List Char → Bool
  | [] => matchHere pat []
  | c :: cs => matchHere pat (c :: cs) || regexTest pat cs

/-- A MongoDB regex condition `{field: regex}`: matches only string fields. -/
def fieldRegexMatch (pat : List RAtom) : JVal → Bool
  | .str s => regexTest pat s.toList
  | _ => false

/-- A MongoDB numeric equality condition `{field: n}`. -/
def numEq (v : JVal) (n : JNum) : Bool :=
  v == JVal.num n

/-! ### ObjectId and lesson documents -/

/-- Validity of an id string: `new ObjectId(s)` succeeds exactly on 24-character hex strings. -/
def isValidOid (s : String) : Bool :=
  s.length == 24 && s.toList.all isHexChar

/-- Model of `ObjectId.getTimestamp()`: seconds encoded in the first 4 bytes
(8 hex digits) of the id. -/
def oidTimestamp (oid : String) : Nat :=
  hexDigitsVal (oid.toList.take 8)

/-- A document of the `lessons` collection.  The store is schemaless: every
field other than `_id` may be absent, a string, or a number. -/
structure LessonDoc where
  oid : String
  subject : JVal := .undef
  topic : JVal := .undef
  location : JVal := .undef
  price : JVal := .undef
  spaces : JVal := .undef
  space : JVal := .undef
  description : JVal := .undef
  image : JVal := .undef
deriving DecidableEq

/-- The response shape of `GET /lessons` and `GET /search`. -/
structure LessonPayload where
  id : String
  subject : JVal
  location : JVal
  price : JVal
  spaces : JVal
  description : JVal
  image : JVal
  addedAt : Nat
deriving DecidableEq

/-- The payload mapping as written in the `GET /lessons` handler:
`subject: doc.subject || doc.topic`, `spaces: doc.spaces ?? doc.space`. -/
def renderLessonList (doc : LessonDoc) : LessonPayload :=
  { id := doc.oid
    subject := jsOr doc.subject doc.topic
    location := doc.location
    price := doc.price
    spaces := nullishOr doc.spaces doc.space
    description := doc.description
    image := doc.image
    addedAt := oidTimestamp doc.oid }

/-- The payload mapping as duplicated in the `GET /search` handler. -/
def renderLessonSearch (doc : LessonDoc) : LessonPayload :=
  { id := doc.oid
    subject := jsOr doc.subject doc.topic
    location := doc.location
    price := doc.price
    spaces := nullishOr doc.spaces doc.space
    description := doc.description
    image := doc.image
    addedAt := oidTimestamp doc.oid }

/-- Handler of `GET /lessons`: every document, rendered. -/
def listAll (lessons : List LessonDoc) : List LessonPayload :=
  lessons.map renderLessonList

/-- Construction of `new RegExp(q, 'i')`, which can throw.  The model
covers the fragment of patterns built from literal characters and the `.`
wildcard: a pattern containing any other metacharacter is modelled as
throwing.  This is exact for the failing tokens the handlers can meet with
a dangling quantifier or bracket (such as "+38", "(", "*a") and
conservative for patterns where the metacharacter is well-placed (such as
"a+", a valid one-or-more); every theorem below stays inside the
literal-and-dot fragment, so none depends on the conservative region. -/
def regexCompile (cs : List Char) : Option (List RAtom) :=
  if cs.all (fun c => regexLiteralChar c || c == '.') then
    some (compileRegexList cs)
  else none

/-- The `$or` filter built by the `GET /search` handler for a non-empty
normalized token `q` and its compiled regex: regex conditions on subject,
topic, location and description, plus — when `Number(q)` is not `NaN` —
equality conditions on price, spaces and space. -/
def lessonMatches (regex : List RAtom) (q : String) (d : LessonDoc) : Bool :=
  let numberVal := jsStrToNumber q
  let isNumber := !numberVal.isNaN
  fieldRegexMatch regex d.subject ||
  fieldRegexMatch regex d.topic ||
  fieldRegexMatch regex d.location ||
  fieldRegexMatch regex d.description ||
  (isNumber &&
    (numEq d.price numberVal || numEq d.spaces numberVal || numEq d.space numberVal))

/-- Outcome of `GET /search`: the rendered payload, or the generic failure
response produced by the catch block (reached when the RegExp constructor
throws). -/
inductive SearchResult where
  | ok (payload : List LessonPayload)
  | serverError (msg : String)
deriving DecidableEq

/-- The lesson list carried by a search response (empty on the error
response, which returns no lessons). -/
def SearchResult.payload : SearchResult → List LessonPayload
  | .ok l => l
  | .serverError _ => []

/-- Handler of `GET /search?q=...`: empty normalized token lists
everything; otherwise `new RegExp(q, 'i')` is built — a throw is caught
and answered as the generic failure — and the collection is filtered by
`lessonMatches`. -/
def search (lessons : List LessonDoc) (qRaw : Option String) : SearchResult :=
  let q := normalize qRaw
  if q = "" then .ok (lessons.map renderLessonSearch)
  else
    match regexCompile q.toList with
    | none => .serverError "Search failed"
    | some regex => .ok ((lessons.filter (lessonMatches regex q)).map renderLessonSearch)

/-! ### `POST /orders` -/

/-- One element of the request `items` array. -/
structure OrderItemIn where
  lessonId : String
  spaces : JVal := .undef
  quantity : JVal := .undef
deriving DecidableEq

/-- One persisted order line item:
`{lessonId: new ObjectId(...), spaces: Number(...)}`. -/
structure OrderItemOut where
  lessonId : String
  spaces : JNum
deriving DecidableEq

/-- A document of the `orders` collection. -/
structure OrderDoc where
  oid : String
  name : JVal
  phone : JVal
  email : JVal
  items : List OrderItemOut
  createdAt : Nat
deriving DecidableEq

/-- The body of `POST /orders` (`items` is `none` when the field is not an
array, mirroring the `Array.isArray` check). -/
structure OrderReq where
  name : JVal := .undef
  phone : JVal := .undef
  email : JVal := .undef
  items : Option (List OrderItemIn) := none
deriving DecidableEq

/-- Outcome of `POST /orders`. -/
inductive OrderResult where
  | created (doc : OrderDoc)
  | badRequest (msg : String)
  | serverError (msg : String)
deriving DecidableEq

/-- The handler expression `items.map(...)`: `new ObjectId(item.lessonId)` (a throw
on an invalid id aborts the whole map) and
`spaces: Number(item.spaces || item.quantity || 0)`. -/
def parseOrderItems : List OrderItemIn → Option (List OrderItemOut)
  | [] => some []
  | it :: rest =>
    if isValidOid it.lessonId then
      match parseOrderItems rest with
      | some out =>
        some ({ lessonId := it.lessonId
                spaces := jvToNumber (jsOr (jsOr it.spaces it.quantity) (JVal.num (JNum.num 0))) } :: out)
      | none => none
    else none

/-- The `POST /orders` handler.  `newId` is the store-assigned id of the
inserted document and `now` the server clock (`new Date()`); a throw from
`new ObjectId` is caught and reported as the generic 500 response. -/
def createOrder (req : OrderReq) (newId : String) (now : Nat)
    (orders : List OrderDoc) : OrderResult × List OrderDoc :=
  match req.items with
  | none => (.badRequest "Missing required order fields", orders)
  | some its =>
    if !req.name.truthy || !req.phone.truthy || its.isEmpty then
      (.badRequest "Missing required order fields", orders)
    else
      match parseOrderItems its with
      | none => (.serverError "Failed to create order", orders)
      | some parsedItems =>
        let doc : OrderDoc :=
          { oid := newId, name := req.name, phone := req.phone, email := req.email
            items := parsedItems, createdAt := now }
        (.created doc, orders ++ [doc])

/-! ### `PUT /lessons/:id` -/

/-- The body of `PUT /lessons/:id`: a partial field set over the lesson
fields (`none` = field not present in the request body). -/
structure UpdateReq where
  subject : Option JVal := none
  topic : Option JVal := none
  location : Option JVal := none
  price : Option JVal := none
  spaces : Option JVal := none
  space : Option JVal := none
  description : Option JVal := none
  image : Option JVal := none
deriving DecidableEq

/-- Outcome of `PUT /lessons/:id`. -/
inductive UpdateResult where
  | ok (doc : LessonDoc)
  | notFound (msg : String)
  | serverError (msg : String)
deriving DecidableEq

/-- The coercion `if (update.spaces !== undefined) update.spaces = Number(update.spaces)`. -/
def coerceSpaces (u : UpdateReq) : UpdateReq :=
  match u.spaces with
  | none => u
  | some v => { u with spaces := some (JVal.num (jvToNumber v)) }

/-- Whether an update object provides no field at all: MongoDB rejects
`{$set: {}}`, so the store refuses such an update. -/
def UpdateReq.isEmptySet (u : UpdateReq) : Bool :=
  u.subject.isNone && u.topic.isNone && u.location.isNone && u.price.isNone &&
  u.spaces.isNone && u.space.isNone && u.description.isNone && u.image.isNone

/-- The store operation `$set update` on a non-empty update: set exactly
the provided fields of a document. -/
def applySet (u : UpdateReq) (d : LessonDoc) : LessonDoc :=
  { oid := d.oid
    subject := u.subject.getD d.subject
    topic := u.topic.getD d.topic
    location := u.location.getD d.location
    price := u.price.getD d.price
    spaces := u.spaces.getD d.spaces
    space := u.space.getD d.space
    description := u.description.getD d.description
    image := u.image.getD d.image }

/-- The store call `findOneAndUpdate` with `$set` and `returnDocument: 'after'`: update the
first document whose id matches, returning the post-update document. -/
def findOneAndUpdate (oid : String) (u : UpdateReq) :
    List LessonDoc → Option LessonDoc × List LessonDoc
  | [] => (none, [])
  | d :: ds =>
    if d.oid = oid then (some (applySet u d), applySet u d :: ds)
    else
      let p := findOneAndUpdate oid u ds
      (p.1, d :: p.2)

/-- The `PUT /lessons/:id` handler: an invalid id makes `new ObjectId(id)`
throw, caught as the generic 500 response; an empty body makes the store
reject the empty `$set`, likewise caught as the generic 500 response; a
valid id that matches no document yields 404; otherwise the `$set`
merge-patch is applied and the post-update document returned. -/
def updateLesson (id : String) (body : UpdateReq)
    (lessons : List LessonDoc) : UpdateResult × List LessonDoc :=
  let update := coerceSpaces body
  if isValidOid id then
    if update.isEmptySet then (.serverError "Failed to update lesson", lessons)
    else
      match findOneAndUpdate id update lessons with
      | (some doc, ls) => (.ok doc, ls)
      | (none, ls) => (.notFound "Lesson not found", ls)
  else (.serverError "Failed to update lesson", lessons)

/-! ### The seeding script (`seed.js`) -/

/-- One entry of the fixed in-memory seed list (legacy field names `topic`
and `space`, as in the script). -/
structure SeedLesson where
  topic : String
  location : String
  price : ℚ
  space : ℚ
  description : String
  image : String
deriving DecidableEq

/-- The fixed 13-entry lesson list of `seed.js`, verbatim. -/
def seedLessons : List SeedLesson :=
  [ { topic := "Algebra II", location := "Room 204", price := 38, space := 5
      description := "Quadratic, exponential, and polynomial problem solving with guided practice."
      image := "https://www.svgrepo.com/show/311604/math.svg" }
  , { topic := "Biology Lab", location := "Science Lab B", price := 42, space := 5
      description := "Microscope work and dissections that bring cellular biology to life."
      image := "https://www.svgrepo.com/show/385149/biology-experiment-lab-laboratory-research-science.svg" }
  , { topic := "Chemistry Honors", location := "Chemistry Lab", price := 44, space := 5
      description := "Reactions, stoichiometry, and weekly safety-focused experiments."
      image := "https://www.svgrepo.com/show/82732/chemistry-lab-instruments.svg" }
  , { topic := "Physics Workshop", location := "Innovation Studio", price := 46, space := 5
      description := "Motion labs, energy challenges, and simple robotics tie-ins."
      image := "https://www.svgrepo.com/show/197819/physics-science.svg" }
  , { topic := "English Literature", location := "Library Commons", price := 36, space := 5
      description := "Close reading, essay writing, and seminar-style discussions."
      image := "https://www.svgrepo.com/show/230246/books-literature.svg" }
  , { topic := "World History", location := "Room 112", price := 34, space := 5
      description := "Global movements and key decisions from ancient to modern eras."
      image := "https://www.svgrepo.com/show/520522/globe.svg" }
  , { topic := "Computer Science Principles", location := "Tech Lab", price := 48, space := 5
      description := "Algorithms, interactive apps, and ethical computing foundations."
      image := "https://www.svgrepo.com/show/294200/coding-programming-language.svg" }
  , { topic := "French Conversation", location := "Language Studio", price := 33, space := 5
      description := "Roleplay, listening drills, and everyday vocabulary."
      image := "https://www.svgrepo.com/show/43090/french.svg" }
  , { topic := "Studio Art", location := "Art Atelier", price := 40, space := 5
      description := "Charcoal, acrylics, and mixed media portfolio pieces."
      image := "https://www.svgrepo.com/show/205590/paint-palette-art-and-design.svg" }
  , { topic := "Music Ensemble", location := "Music Room", price := 37, space := 5
      description := "Contemporary charts and small-group performance skills."
      image := "https://www.svgrepo.com/show/109458/music-notes.svg" }
  , { topic := "AP Economics", location := "Room 305", price := 45, space := 5
      description := "Market simulations and data-driven policy case studies."
      image := "https://www.svgrepo.com/show/11834/economy.svg" }
  , { topic := "Health & Wellness", location := "Wellness Center", price := 32, space := 5
      description := "Nutrition, mindfulness, and fitness planning for balanced living."
      image := "https://www.svgrepo.com/show/339260/heart-health.svg" }
  , { topic := "Environmental Science", location := "Greenhouse Lab", price := 41, space := 5
      description := "Ecosystems, sustainability challenges, and field data collection."
      image := "https://www.svgrepo.com/show/456300/leaf-globe.svg" } ]

/-- A seed entry as stored by `insertMany` under a store-assigned id. -/
def seedToDoc (oid : String) (l : SeedLesson) : LessonDoc :=
  { oid := oid
    topic := .str l.topic
    location := .str l.location
    price := .num (.num l.price)
    space := .num (.num l.space)
    description := .str l.description
    image := .str l.image }

/-- The store call `insertMany`: store each entry in order under the next store-assigned
id (`newIds i` is the id handed out for the i-th inserted document). -/
def insertSeed (newIds : Nat → String) (i : Nat) : List SeedLesson → List LessonDoc
  | [] => []
  | l :: rest => seedToDoc (newIds i) l :: insertSeed newIds (i + 1) rest

/-- The store call `deleteMany` with an empty filter: empty the collection. -/
def deleteManyAll (_ls : List LessonDoc) : List LessonDoc := []

/-- The seeding `run`: `deleteMany({})` on the lessons collection, then
`insertMany(seedLessons)`; returns the final collection and the reported
`insertedCount`. -/
def reseedRun (newIds : Nat → String) (prior : List LessonDoc) :
    List LessonDoc × Nat :=
  let cleared := deleteManyAll prior
  let inserted := insertSeed newIds 0 seedLessons
  (cleared ++ inserted, inserted.length)

/-! ### Spec-side characterizations

Definitions in this section follow the wording of the specification, to be
compared against the handler definitions above. -/

/-- The token matches at the start of the subject, case-insensitively. -/
def ciHere : List Char → List Char → Bool
  | [], _ => true
  | _ :: _, [] => false
  | q :: qs, c :: cs => (q.toLower == c.toLower) && ciHere qs cs

/-- The token occurs somewhere in the subject, case-insensitively. -/
def ciSubstr (qs : List Char) : List Char → Bool
  | [] => ciHere qs []
  | c :: cs => ciHere qs (c :: cs) || ciSubstr qs cs

/-- Case-insensitive substring occurrence on strings. -/
def ciSubstring (q s : String) : Bool :=
  ciSubstr q.toList s.toList

/-- Spec-side field condition: the token occurs as a case-insensitive
substring of a string field (a non-string field never matches). -/
def ciFieldMatch (q : String) : JVal → Bool
  | .str s => ciSubstring q s
  | _ => false

/-- Spec-side text-search predicate: the token occurs as a case-insensitive
substring of the subject, topic, location, or description field. -/
def specTextMatch (q : String) (d : LessonDoc) : Bool :=
  ciFieldMatch q d.subject || ciFieldMatch q d.topic ||
  ciFieldMatch q d.location || ciFieldMatch q d.description

/-- Spec-side merge-patch: set exactly the provided fields, coercing a
provided `spaces` value to a number, and leave every other field of the
document untouched. -/
def mergePatchSpec (body : UpdateReq) (d : LessonDoc) : LessonDoc :=
  { oid := d.oid
    subject := body.subject.getD d.subject
    topic := body.topic.getD d.topic
    location := body.location.getD d.location
    price := body.price.getD d.price
    spaces :=
      match body.spaces with
      | some v => JVal.num (jvToNumber v)
      | none => d.spaces
    space := body.space.getD d.space
    description := body.description.getD d.description
    image := body.image.getD d.image }

/-- Amended spec-side requested space count of an order item: the `spaces`
value coerced to a number when `spaces` is present and truthy, otherwise
the legacy `quantity` value coerced when present and truthy, otherwise 0. -/
def itemSpacesSpec (it : OrderItemIn) : JNum :=
  if it.spaces.truthy then jvToNumber it.spaces
  else if it.quantity.truthy then jvToNumber it.quantity
  else JNum.num 0

/-- The content fields of a stored lesson document (everything but the
store-assigned id). -/
def docSeedFields (d : LessonDoc) : JVal × JVal × JVal × JVal × JVal × JVal :=
  (d.topic, d.location, d.price, d.space, d.description, d.image)

/-- The content fields a seed entry is expected to be stored with. -/
def entryFields (l : SeedLesson) : JVal × JVal × JVal × JVal × JVal × JVal :=
  (.str l.topic, .str l.location, .num (.num l.price), .num (.num l.space),
   .str l.description, .str l.image)

/-! ### Concrete fixtures used by witnesses and counterexamples -/

/-- A well-formed ObjectId hex string. -/
def oidA : String := "aaaaaaaaaaaaaaaaaaaaaaaa"

/-- A second, distinct well-formed ObjectId hex string. -/
def oidB : String := "bbbbbbbbbbbbbbbbbbbbbbbb"

/-- A concrete canonical-shaped lesson document. -/
def mathDoc : LessonDoc :=
  { oid := oidA, subject := .str "Math", location := .str "Room 1"
    price := .num (.num 38), spaces := .num (.num 5), description := .str "Fun" }

/-- A concrete lesson document whose text fields contain "music". -/
def musicDoc : LessonDoc :=
  { oid := oidB, subject := .str "Music Ensemble", location := .str "Music Room"
    price := .num (.num 37), spaces := .num (.num 5)
    description := .str "Band practice" }

/-! ### Helper lemmas -/

/-- The payload mapping duplicated in the search handler agrees with the
one in the lessons handler. -/
lemma renderLessonSearch_eq (d : LessonDoc) :
    renderLessonSearch d = renderLessonList d := rfl

/-- A pattern of literal atoms matches a prefix exactly when the token
matches there case-insensitively. -/
lemma matchHere_lit (qs cs : List Char) :
    matchHere (qs.map RAtom.lit) cs = ciHere qs cs := by
  induction qs generalizing cs with
  | nil => cases cs <;> rfl
  | cons q qs ih =>
    cases cs with
    | nil => rfl
    | cons c cs => simp [matchHere, ciHere, atomMatch, ih]

/-- A pattern of literal atoms tests positively exactly when the token is a
case-insensitive substring. -/
lemma regexTest_lit (qs cs : List Char) :
    regexTest (qs.map RAtom.lit) cs = ciSubstr qs cs := by
  induction cs with
  | nil => simp [regexTest, ciSubstr, matchHere_lit]
  | cons c cs ih => simp [regexTest, ciSubstr, matchHere_lit, ih]

/-- Compiling a token free of metacharacters yields only literal atoms. -/
lemma compile_lit (cs : List Char) (h : ∀ c ∈ cs, regexLiteralChar c = true) :
    compileRegexList cs = cs.map RAtom.lit := by
  induction cs with
  | nil => rfl
  | cons c cs ih =>
    have hc : c ≠ '.' := by
      intro he
      subst he
      exact absurd (h _ (List.mem_cons_self _ _)) (by decide)
    have ht := ih fun x hx => h x (List.mem_cons_of_mem _ hx)
    show (if c = '.' then RAtom.dot else RAtom.lit c) :: compileRegexList cs =
      RAtom.lit c :: cs.map RAtom.lit
    rw [if_neg hc, ht]

/-- For a metacharacter-free token, the MongoDB regex condition coincides
with case-insensitive substring occurrence on each field. -/
lemma fieldRegexMatch_lit (q : String) (h : ∀ c ∈ q.toList, regexLiteralChar c = true)
    (v : JVal) :
    fieldRegexMatch (compileRegexList q.toList) v = ciFieldMatch q v := by
  cases v with
  | undef => rfl
  | num n => rfl
  | str s =>
    show regexTest (compileRegexList q.toList) s.toList = ciSubstring q s
    rw [compile_lit _ h, regexTest_lit]
    rfl

/-- A token whose characters are all literal or the `.` wildcard makes the
RegExp constructor succeed. -/
lemma regexCompile_lit_dot (cs : List Char)
    (h : ∀ c ∈ cs, regexLiteralChar c = true ∨ c = '.') :
    regexCompile cs = some (compileRegexList cs) := by
  unfold regexCompile
  have hall : cs.all (fun c => regexLiteralChar c || c == '.') = true := by
    rw [List.all_eq_true]
    intro c hc
    rcases h c hc with hc1 | hc1 <;> simp [hc1]
  rw [hall]
  rfl

/-! ### Claims -/

/-- C2: a token that is empty after trimming makes `search` return exactly
the same result, in the same response shape, as `listAll`. -/
theorem search_empty_eq_listAll (lessons : List LessonDoc) (qRaw : Option String)
    (h : normalize qRaw = "") :
    search lessons qRaw = .ok (listAll lessons) := by
  simp [search, listAll, h, renderLessonSearch_eq]

/-- Witness for C2 at a concrete store and an all-whitespace token. -/
theorem search_empty_eq_listAll_witness :
    search [mathDoc, musicDoc] (some "   ") = .ok (listAll [mathDoc, musicDoc]) :=
  search_empty_eq_listAll [mathDoc, musicDoc] (some "   ") (by decide)

/-- C3 (amended): when the token parses as a valid number and contains no
regex metacharacter other than the `.` wildcard, `search` includes every
lesson whose `price`, `spaces` or legacy `space` field equals that number,
even if no text field matches. -/
theorem search_numeric_includes (lessons : List LessonDoc) (qRaw : Option String)
    (d : LessonDoc) (hd : d ∈ lessons)
    (hre : ∀ c ∈ (normalize qRaw).toList, regexLiteralChar c = true ∨ c = '.')
    (hnum : (jsStrToNumber (normalize qRaw)).isNaN = false)
    (hfield : d.price = JVal.num (jsStrToNumber (normalize qRaw)) ∨
      d.spaces = JVal.num (jsStrToNumber (normalize qRaw)) ∨
      d.space = JVal.num (jsStrToNumber (normalize qRaw))) :
    renderLessonSearch d ∈ (search lessons qRaw).payload := by
  unfold search
  by_cases hq : normalize qRaw = ""
  · simp only [hq, if_pos rfl, SearchResult.payload]
    exact List.mem_map_of_mem _ hd
  · rw [if_neg hq, regexCompile_lit_dot _ hre]
    show renderLessonSearch d ∈
      (lessons.filter
        (lessonMatches (compileRegexList (normalize qRaw).toList) (normalize qRaw))).map
        renderLessonSearch
    refine List.mem_map_of_mem _ (List.mem_filter.mpr ⟨hd, ?_⟩)
    unfold lessonMatches
    simp only [hnum, Bool.not_false, Bool.true_and]
    rcases hfield with hf | hf | hf <;> simp [numEq, hf]

/-- Witness for C3: a numeric token finds a lesson by exact price match
though no text field contains the digits. -/
theorem search_numeric_includes_witness :
    renderLessonSearch mathDoc ∈ (search [mathDoc] (some " 38 ")).payload :=
  search_numeric_includes [mathDoc] (some " 38 ") mathDoc (by decide) (by decide)
    (by decide) (Or.inl (by decide))

/-- C3 counterexample: the token "+38" parses as the number 38 and a
stored lesson's price equals it, yet the RegExp constructor throws on the
dangling quantifier before the numeric branch is reached, so the handler
answers the generic search failure and returns no lessons. -/
theorem search_plus_token_counterexample :
    search [mathDoc] (some "+38") = .serverError "Search failed" ∧
    jsStrToNumber (normalize (some "+38")) = JNum.num 38 ∧
    mathDoc.price = JVal.num (JNum.num 38) := by
  refine ⟨?_, ?_, ?_⟩ <;> decide

/-- C5: `createOrder` rejects with the validation error whenever name or
phone is absent or empty, or items is not a non-empty array, and the orders
collection is unchanged on rejection. -/
theorem createOrder_validation (req : OrderReq) (newId : String) (now : Nat)
    (orders : List OrderDoc)
    (h : req.name = .undef ∨ req.name = .str "" ∨ req.phone = .undef ∨
      req.phone = .str "" ∨ req.items = none ∨ req.items = some []) :
    createOrder req newId now orders =
      (.badRequest "Missing required order fields", orders) := by
  unfold createOrder
  rcases hi : req.items with _ | its
  · rfl
  · rcases h with h | h | h | h | h | h <;>
      simp_all [JVal.truthy]

/-- C1 (amended): for a non-empty token free of regex metacharacters that
does not parse as a number, `search` returns exactly the lessons in which
the token occurs as a case-insensitive substring of the subject, topic,
location, or description field. -/
theorem search_literal_token_substring (lessons : List LessonDoc) (qRaw : Option String)
    (hne : normalize qRaw ≠ "")
    (hlit : ∀ c ∈ (normalize qRaw).toList, regexLiteralChar c = true)
    (hnan : jsStrToNumber (normalize qRaw) = JNum.nan) :
    search lessons qRaw =
      .ok ((lessons.filter (specTextMatch (normalize qRaw))).map renderLessonSearch) := by
  unfold search
  rw [if_neg hne, regexCompile_lit_dot _ fun c hc => Or.inl (hlit c hc)]
  show SearchResult.ok
      ((lessons.filter
        (lessonMatches (compileRegexList (normalize qRaw).toList) (normalize qRaw))).map
        renderLessonSearch) = _
  congr 1
  congr 1
  apply List.filter_congr
  intro d _
  simp only [lessonMatches, specTextMatch, hnan, fieldRegexMatch_lit _ hlit, JNum.isNaN]
  simp

/-- Witness for C1: searching "MuSiC" (trimmed to the lowercase literal
token "music") returns exactly the lesson whose fields contain it. -/
theorem search_literal_token_substring_witness :
    search [mathDoc, musicDoc] (some "MuSiC") =
      .ok ((([mathDoc, musicDoc]).filter (specTextMatch (normalize (some "MuSiC")))).map
        renderLessonSearch) ∧
    search [mathDoc, musicDoc] (some "MuSiC") = .ok [renderLessonSearch musicDoc] :=
  ⟨search_literal_token_substring [mathDoc, musicDoc] (some "MuSiC") (by decide)
      (by decide) (by decide),
    by decide⟩

/-- C1 counterexample: the token "." is not a substring of any field of
`mathDoc`, yet `search` returns the lesson — the token is used as a regular
expression, not as a literal substring. -/
theorem search_dot_counterexample :
    search [mathDoc] (some ".") = .ok [renderLessonSearch mathDoc] ∧
    ([mathDoc].filter (specTextMatch (normalize (some ".")))).map renderLessonSearch
      = [] := by
  constructor <;> decide

/-- C4 (amended): a document carrying the legacy field `topic` instead of
`subject` renders identically to one carrying the same value under
`subject`, provided that value is truthy (a non-empty string); the
`spaces`/`space` aliasing is exact for every value. -/
theorem legacy_alias_renders (oidv : String) (v w loc pr desc img : JVal)
    (hv : v.truthy = true) :
    listAll [{ oid := oidv, subject := v, topic := .undef, location := loc,
               price := pr, spaces := w, space := .undef, description := desc,
               image := img }] =
    listAll [{ oid := oidv, subject := .undef, topic := v, location := loc,
               price := pr, spaces := .undef, space := w, description := desc,
               image := img }] := by
  simp only [listAll, List.map, renderLessonList]
  have hsub : jsOr v JVal.undef = jsOr JVal.undef v := by
    unfold jsOr
    rw [hv]
    rfl
  have hsp : nullishOr w JVal.undef = nullishOr JVal.undef w := by
    cases w <;> rfl
  rw [hsub, hsp]

/-- Witness for C4 at a concrete lesson value. -/
theorem legacy_alias_renders_witness :
    listAll [{ oid := oidA, subject := .str "Music", topic := .undef,
               location := .str "Hall", price := .num (.num 37),
               spaces := .num (.num 0), space := .undef,
               description := .str "Band", image := .str "m.svg" }] =
    listAll [{ oid := oidA, subject := .undef, topic := .str "Music",
               location := .str "Hall", price := .num (.num 37),
               spaces := .undef, space := .num (.num 0),
               description := .str "Band", image := .str "m.svg" }] :=
  legacy_alias_renders oidA (.str "Music") (.num (.num 0)) (.str "Hall")
    (.num (.num 37)) (.str "Band") (.str "m.svg") (by decide)

/-- C4 counterexample: with the empty string as the subject/topic value the
two document shapes render differently — `doc.subject || doc.topic` drops
an empty-string subject but keeps an empty-string topic. -/
theorem legacy_alias_counterexample :
    listAll [{ oid := oidA, subject := .str "" }] ≠
      listAll [{ oid := oidA, topic := .str "" }] := by
  decide

/-- Numeric coercion of an order item's requested spaces as the handler
computes it, rephrased by truthiness cases. -/
lemma spaces_or_cases (s q : JVal) :
    jvToNumber (jsOr (jsOr s q) (JVal.num (JNum.num 0))) =
      (if s.truthy then jvToNumber s
       else if q.truthy then jvToNumber q else JNum.num 0) := by
  by_cases hs : s.truthy <;> by_cases hq : q.truthy <;>
    simp [jsOr, hs, hq, jvToNumber]

/-- For a list of items with well-formed lesson ids, the handler's
`items.map(...)` succeeds and produces the amended spec's space counts. -/
lemma parseOrderItems_spec (its : List OrderItemIn)
    (h : ∀ it ∈ its, isValidOid it.lessonId = true) :
    parseOrderItems its =
      some (its.map fun it => { lessonId := it.lessonId, spaces := itemSpacesSpec it }) := by
  induction its with
  | nil => rfl
  | cons it rest ih =>
    have hid := h it (List.mem_cons_self _ _)
    rw [parseOrderItems, if_pos hid, ih fun x hx => h x (List.mem_cons_of_mem _ hx)]
    simp [spaces_or_cases, itemSpacesSpec]

/-- An order request that passes validation and whose item ids are all
well-formed is inserted, each item's space count computed per
`itemSpacesSpec`. -/
lemma createOrder_accepts (name phone email : JVal) (its : List OrderItemIn)
    (newId : String) (now : Nat) (orders : List OrderDoc)
    (hn : name.truthy = true) (hp : phone.truthy = true) (hne : its ≠ [])
    (hids : ∀ it ∈ its, isValidOid it.lessonId = true) :
    createOrder { name := name, phone := phone, email := email, items := some its }
        newId now orders =
      (.created { oid := newId, name := name, phone := phone, email := email,
                  items := its.map fun it =>
                    { lessonId := it.lessonId, spaces := itemSpacesSpec it }
                  createdAt := now },
       orders ++ [{ oid := newId, name := name, phone := phone, email := email,
                    items := its.map fun it =>
                      { lessonId := it.lessonId, spaces := itemSpacesSpec it }
                    createdAt := now }]) := by
  have hempty : its.isEmpty = false := by
    cases its with
    | nil => exact absurd rfl hne
    | cons a l => rfl
  simp only [createOrder, hn, hp, hempty, Bool.not_true, Bool.or_false, Bool.false_or,
    Bool.or_self, ite_false, parseOrderItems_spec its hids]
  rfl

/-- C6 (amended): for an accepted order, each persisted space count is the
item's `spaces` coerced to a number when `spaces` is present and truthy,
otherwise the legacy `quantity` coerced when truthy, otherwise 0 — a falsy
`spaces` value (0, empty string, `NaN`) falls through to `quantity`. -/
theorem createOrder_item_spaces (name phone email : JVal) (its : List OrderItemIn)
    (newId : String) (now : Nat) (orders : List OrderDoc)
    (hn : name.truthy = true) (hp : phone.truthy = true) (hne : its ≠ [])
    (hids : ∀ it ∈ its, isValidOid it.lessonId = true) :
    createOrder { name := name, phone := phone, email := email, items := some its }
        newId now orders =
      (.created { oid := newId, name := name, phone := phone, email := email,
                  items := its.map fun it =>
                    { lessonId := it.lessonId, spaces := itemSpacesSpec it }
                  createdAt := now },
       orders ++ [{ oid := newId, name := name, phone := phone, email := email,
                    items := its.map fun it =>
                      { lessonId := it.lessonId, spaces := itemSpacesSpec it }
                    createdAt := now }]) :=
  createOrder_accepts name phone email its newId now orders hn hp hne hids

/-- Witness for C6: an item with falsy `spaces` (0) and truthy `quantity`
(5) persists 5. -/
theorem createOrder_item_spaces_witness :
    createOrder { name := .str "Ada", phone := .str "0123",
                  items := some [{ lessonId := oidA, spaces := .num (.num 0),
                                   quantity := .num (.num 5) }] }
        oidB 9 [] =
      (.created { oid := oidB, name := .str "Ada", phone := .str "0123",
                  email := .undef,
                  items := [{ lessonId := oidA, spaces := .num 5 }],
                  createdAt := 9 },
       [{ oid := oidB, name := .str "Ada", phone := .str "0123",
          email := .undef, items := [{ lessonId := oidA, spaces := .num 5 }],
          createdAt := 9 }]) := by
  have h := createOrder_item_spaces (.str "Ada") (.str "0123") .undef
    [{ lessonId := oidA, spaces := .num (.num 0), quantity := .num (.num 5) }]
    oidB 9 [] (by decide) (by decide) (by decide) (by decide)
  simpa using h

/-- C6 counterexample: the claim predicts that a present `spaces` value is
always the one coerced, so the item `{spaces: 0, quantity: 5}` should
persist 0; the handler persists 5. -/
theorem createOrder_zero_spaces_counterexample :
    (createOrder { name := .str "Ada", phone := .str "0123",
                   items := some [{ lessonId := oidA, spaces := .num (.num 0),
                                    quantity := .num (.num 5) }] }
        oidB 9 []).1 =
      .created { oid := oidB, name := .str "Ada", phone := .str "0123",
                 email := .undef,
                 items := [{ lessonId := oidA, spaces := .num 5 }],
                 createdAt := 9 } ∧
    JNum.num 5 ≠ jvToNumber (JVal.num (JNum.num 0)) := by
  constructor <;> decide

/-- Witness for C5: an empty name is rejected and nothing is persisted. -/
theorem createOrder_validation_witness :
    createOrder { name := .str "", phone := .str "0123456789",
                  items := some [{ lessonId := oidA, spaces := .num (.num 2) }] }
        oidB 7 [] =
      (.badRequest "Missing required order fields", []) :=
  createOrder_validation _ oidB 7 [] (Or.inr (Or.inl rfl))

/-- An invalid lesson id anywhere in the items makes the handler's
`items.map(...)` throw. -/
lemma parseOrderItems_none (its : List OrderItemIn) (bad : OrderItemIn)
    (hm : bad ∈ its) (hbad : isValidOid bad.lessonId = false) :
    parseOrderItems its = none := by
  induction its with
  | nil => cases hm
  | cons a rest ih =>
    rcases List.mem_cons.mp hm with h | h
    · subst h
      rw [parseOrderItems, if_neg (by simp [hbad])]
    · rw [parseOrderItems]
      by_cases ha : isValidOid a.lessonId
      · rw [if_pos ha, ih h]
      · rw [if_neg ha]

/-- C7 (amended): a malformed identifier string makes the operation report
the generic server error, distinct from not-found but not a separate
validation/client error — in `updateLesson` for the lesson id and in
`createOrder` for an item's lessonId. -/
theorem invalid_oid_server_error (id : String) (body : UpdateReq)
    (ls : List LessonDoc) (name phone email : JVal) (its : List OrderItemIn)
    (bad : OrderItemIn) (newId : String) (now : Nat) (orders : List OrderDoc)
    (hid : isValidOid id = false)
    (hn : name.truthy = true) (hp : phone.truthy = true)
    (hm : bad ∈ its) (hbad : isValidOid bad.lessonId = false) :
    updateLesson id body ls = (.serverError "Failed to update lesson", ls) ∧
    createOrder { name := name, phone := phone, email := email, items := some its }
        newId now orders = (.serverError "Failed to create order", orders) ∧
    UpdateResult.serverError "Failed to update lesson" ≠
      UpdateResult.notFound "Lesson not found" := by
  refine ⟨?_, ?_, by decide⟩
  · unfold updateLesson
    rw [if_neg (by simp [hid])]
  · have hempty : its.isEmpty = false := by
      cases its with
      | nil => cases hm
      | cons a l => rfl
    simp only [createOrder, hn, hp, hempty, Bool.not_true, Bool.or_false,
      Bool.false_or, Bool.or_self, ite_false, parseOrderItems_none its bad hm hbad]
    rfl

/-- Witness for C7 at the malformed identifier "notanid". -/
theorem invalid_oid_server_error_witness :
    updateLesson "notanid" { spaces := some (.num (.num 3)) } [mathDoc] =
      (.serverError "Failed to update lesson", [mathDoc]) ∧
    createOrder { name := .str "Ada", phone := .str "0123",
                  items := some [{ lessonId := "notanid" }] } oidB 4 [] =
      (.serverError "Failed to create order", []) ∧
    UpdateResult.serverError "Failed to update lesson" ≠
      UpdateResult.notFound "Lesson not found" :=
  invalid_oid_server_error "notanid" { spaces := some (.num (.num 3)) } [mathDoc]
    (.str "Ada") (.str "0123") .undef [{ lessonId := "notanid" }]
    { lessonId := "notanid" } oidB 4 [] (by decide) (by decide) (by decide)
    (by decide) (by decide)

/-- C7 counterexample: a malformed identifier yields the generic server
error response in both operations, not a distinct validation error — the
update result type has no client-error variant at all. -/
theorem invalid_oid_counterexample :
    (updateLesson "zzz" { spaces := some (.num (.num 3)) } [mathDoc]).1 =
      .serverError "Failed to update lesson" ∧
    (createOrder { name := .str "Bo", phone := .str "77",
                   items := some [{ lessonId := "zzz" }] } oidB 1 []).1 =
      .serverError "Failed to create order" := by
  constructor <;> decide

/-- The model `findOneAndUpdate` finds nothing when no document carries the id. -/
lemma findOneAndUpdate_none (oid : String) (u : UpdateReq) (ls : List LessonDoc)
    (h : ∀ d ∈ ls, d.oid ≠ oid) : findOneAndUpdate oid u ls = (none, ls) := by
  induction ls with
  | nil => rfl
  | cons d ds ih =>
    rw [findOneAndUpdate, if_neg (h d (List.mem_cons_self _ _)),
      ih fun x hx => h x (List.mem_cons_of_mem _ hx)]

/-- The model `findOneAndUpdate` updates the first matching document and leaves the
rest of the collection untouched. -/
lemma findOneAndUpdate_found (oid : String) (u : UpdateReq)
    (pre post : List LessonDoc) (d : LessonDoc) (hd : d.oid = oid)
    (h : ∀ x ∈ pre, x.oid ≠ oid) :
    findOneAndUpdate oid u (pre ++ d :: post) =
      (some (applySet u d), pre ++ applySet u d :: post) := by
  induction pre with
  | nil => simp [findOneAndUpdate, hd]
  | cons a l ih =>
    rw [List.cons_append, findOneAndUpdate,
      if_neg (h a (List.mem_cons_self _ _)),
      ih fun x hx => h x (List.mem_cons_of_mem _ hx)]
    rfl

/-- The `$set` application after the handler's spaces coercion is exactly
the spec's merge-patch. -/
lemma applySet_coerce (body : UpdateReq) (d : LessonDoc) :
    applySet (coerceSpaces body) d = mergePatchSpec body d := by
  cases hb : body.spaces <;>
    simp [applySet, coerceSpaces, mergePatchSpec, hb]

/-- The spaces coercion does not change whether the update object is
empty. -/
lemma coerceSpaces_isEmptySet (u : UpdateReq) :
    (coerceSpaces u).isEmptySet = u.isEmptySet := by
  cases hs : u.spaces <;> simp [coerceSpaces, UpdateReq.isEmptySet, hs]

/-- C8 (amended): for a well-formed id and a body providing at least one
field, `updateLesson` on a matching document coerces a provided `spaces`
field to a number, applies the partial field set as a merge-patch leaving
every other field untouched, returns the post-update document, and leaves
the rest of the collection unchanged; a well-formed id matching no document
reports not-found and changes nothing.  (An empty body is rejected by the
store's empty-`$set` check and answered as the generic server error.) -/
theorem updateLesson_spec (id : String) (body : UpdateReq)
    (ls pre post : List LessonDoc) (d : LessonDoc) :
    (body.isEmptySet = false → isValidOid id = true → (∀ x ∈ ls, x.oid ≠ id) →
      updateLesson id body ls = (.notFound "Lesson not found", ls)) ∧
    (body.isEmptySet = false → isValidOid d.oid = true → (∀ x ∈ pre, x.oid ≠ d.oid) →
      updateLesson d.oid body (pre ++ d :: post) =
        (.ok (mergePatchSpec body d), pre ++ mergePatchSpec body d :: post)) := by
  constructor
  · intro hb hv hnone
    unfold updateLesson
    rw [if_pos hv, if_neg (by simp [coerceSpaces_isEmptySet, hb]),
      findOneAndUpdate_none id (coerceSpaces body) ls hnone]
  · intro hb hv hpre
    unfold updateLesson
    rw [if_pos hv, if_neg (by simp [coerceSpaces_isEmptySet, hb]),
      findOneAndUpdate_found d.oid (coerceSpaces body) pre post d rfl hpre,
      applySet_coerce]

/-- Witness for C8: `{spaces: "4"}` on a stored lesson persists the number
4 (not the string "4") and leaves the other fields as they were, and the
same body against an unmatched well-formed id reports not-found. -/
theorem updateLesson_spec_witness :
    updateLesson oidB { spaces := some (.str "4") } [mathDoc] =
      (.notFound "Lesson not found", [mathDoc]) ∧
    updateLesson oidA { spaces := some (.str "4") } [mathDoc] =
      (.ok { oid := oidA, subject := .str "Math", location := .str "Room 1",
             price := .num (.num 38), spaces := .num (.num 4),
             description := .str "Fun" },
       [{ oid := oidA, subject := .str "Math", location := .str "Room 1",
          price := .num (.num 38), spaces := .num (.num 4),
          description := .str "Fun" }]) := by
  have h := updateLesson_spec oidB { spaces := some (.str "4") } [mathDoc] [] [] mathDoc
  refine ⟨h.1 (by decide) (by decide) (by decide), ?_⟩
  have h2 := h.2 (by decide) (by decide) (by decide)
  simpa using h2

/-- C8 counterexample: the empty body reaches the store as an empty `$set`,
which MongoDB rejects, so `PUT /lessons/:id` on a stored lesson answers the
generic 500 failure instead of the unchanged document that the
unconditional merge-patch reading predicts. -/
theorem empty_update_counterexample :
    updateLesson oidA {} [mathDoc] =
      (.serverError "Failed to update lesson", [mathDoc]) ∧
    UpdateResult.serverError "Failed to update lesson" ≠ .ok mathDoc := by
  constructor <;> decide

/-- Content fields of `insertSeed` documents are the seed entries, in
order. -/
lemma insertSeed_fields (newIds : Nat → String) (i : Nat) (ls : List SeedLesson) :
    (insertSeed newIds i ls).map docSeedFields = ls.map entryFields := by
  induction ls generalizing i with
  | nil => rfl
  | cons l rest ih => simp [insertSeed, ih, docSeedFields, seedToDoc, entryFields]

/-- The model `insertSeed` inserts one document per entry. -/
lemma insertSeed_length (newIds : Nat → String) (i : Nat) (ls : List SeedLesson) :
    (insertSeed newIds i ls).length = ls.length := by
  induction ls generalizing i with
  | nil => rfl
  | cons l rest ih => simp [insertSeed, ih]

/-- C9: regardless of the prior contents of the lessons collection, the
seeding run deletes everything and inserts the fixed list verbatim: the
resulting collection carries exactly the seed entries' fields in order, the
reported count is the list length, and the outcome does not depend on the
prior state. -/
theorem reseed_spec (newIds : Nat → String) (prior : List LessonDoc) :
    (reseedRun newIds prior).2 = seedLessons.length ∧
    (reseedRun newIds prior).1.map docSeedFields = seedLessons.map entryFields ∧
    reseedRun newIds prior = reseedRun newIds [] := by
  refine ⟨insertSeed_length newIds 0 seedLessons, ?_, rfl⟩
  simpa [reseedRun, deleteManyAll] using insertSeed_fields newIds 0 seedLessons

/-- C10: every order passing validation with well-formed item ids is
accepted, and an item whose `spaces` value — or, when `spaces` is falsy,
whose fallback `quantity` value — is a truthy string that does not parse
as a number is persisted with space count `NaN`. -/
theorem nan_spaces_accepted (name phone email : JVal) (its : List OrderItemIn)
    (it : OrderItemIn) (s : String) (newId : String) (now : Nat)
    (orders : List OrderDoc)
    (hn : name.truthy = true) (hp : phone.truthy = true)
    (hids : ∀ x ∈ its, isValidOid x.lessonId = true) (hmem : it ∈ its)
    (hbad : (it.spaces = JVal.str s ∧ it.spaces.truthy = true) ∨
      (it.spaces.truthy = false ∧ it.quantity = JVal.str s ∧
        it.quantity.truthy = true))
    (hnan : jsStrToNumber s = JNum.nan) :
    createOrder { name := name, phone := phone, email := email, items := some its }
        newId now orders =
      (.created { oid := newId, name := name, phone := phone, email := email,
                  items := its.map fun x =>
                    { lessonId := x.lessonId, spaces := itemSpacesSpec x }
                  createdAt := now },
       orders ++ [{ oid := newId, name := name, phone := phone, email := email,
                    items := its.map fun x =>
                      { lessonId := x.lessonId, spaces := itemSpacesSpec x }
                    createdAt := now }]) ∧
    OrderItemOut.mk it.lessonId JNum.nan ∈
      its.map fun x => OrderItemOut.mk x.lessonId (itemSpacesSpec x) := by
  have hne : its ≠ [] := List.ne_nil_of_mem hmem
  refine ⟨createOrder_accepts name phone email its newId now orders hn hp hne hids, ?_⟩
  have hspec : itemSpacesSpec it = JNum.nan := by
    rcases hbad with ⟨h1, h2⟩ | ⟨h1, h2, h3⟩
    · unfold itemSpacesSpec
      rw [if_pos h2, h1]
      simp [jvToNumber, hnan]
    · unfold itemSpacesSpec
      rw [if_neg (by simp [h1]), if_pos h3, h2]
      simp [jvToNumber, hnan]
  have hm := List.mem_map_of_mem
    (fun x => OrderItemOut.mk x.lessonId (itemSpacesSpec x)) hmem
  simpa only [hspec] using hm

/-- Witness for C10: a two-item order where the second item's bad string
"abc" sits in the `quantity` fallback (its `spaces` absent) is accepted,
and that item is persisted with space count `NaN`. -/
theorem nan_spaces_accepted_witness :
    createOrder { name := .str "Ada", phone := .str "0123",
                  items := some [{ lessonId := oidB, spaces := .num (.num 2) },
                                 { lessonId := oidA, quantity := .str "abc" }] }
        oidB 3 [] =
      (.created { oid := oidB, name := .str "Ada", phone := .str "0123",
                  email := .undef,
                  items := [{ lessonId := oidB, spaces := .num 2 },
                            { lessonId := oidA, spaces := JNum.nan }],
                  createdAt := 3 },
       [{ oid := oidB, name := .str "Ada", phone := .str "0123", email := .undef,
          items := [{ lessonId := oidB, spaces := .num 2 },
                    { lessonId := oidA, spaces := JNum.nan }], createdAt := 3 }]) ∧
    OrderItemOut.mk oidA JNum.nan ∈
      [OrderItemOut.mk oidB (.num 2), OrderItemOut.mk oidA JNum.nan] := by
  have h := nan_spaces_accepted (.str "Ada") (.str "0123") .undef
    [{ lessonId := oidB, spaces := .num (.num 2) },
     { lessonId := oidA, quantity := .str "abc" }]
    { lessonId := oidA, quantity := .str "abc" } "abc" oidB 3 []
    (by decide) (by decide) (by decide) (by decide)
    (Or.inr ⟨by decide, by decide, by decide⟩) (by decide)
  exact h

end Aneski
